import Mathlib

/-!
Verification of the websocket layer of glowing-telegram
(`src/websocket_lambda/`): the countdown action engine
(`message.py:handle_countdown_action`), the subscribe/action handlers
(`message.py:handle_subscribe`, `message.py:handle_action`), the change
dispatcher (`widget_change.py`) and the token authorizer
(`authorizer.py`), embedded shallowly and checked against the
natural-language specification.
-/

namespace GT

/-- A JSON-ish payload value, as obtained from `payload.get("duration")`
after `json.loads`.  Python booleans are an `int` subclass and compare
and compute as the numbers 0/1, so they are folded into `num`. -/
inductive PVal where
  | num (q : ℚ)
  | str (s : String)
  | null
deriving DecidableEq, Repr

/-- Countdown widget state, the `state` dict of a countdown widget in
`message.py:handle_countdown_action`.  `enabled` is read with Python
truthiness (missing/None read as false); `duration_left` is read with
`state.get("duration_left", 0)`, i.e. a missing key is the number 0 at
every read, so it is modelled as the plain number; `last_tick_timestamp`
is an optional ISO timestamp, modelled as an optional rational number of
seconds since the epoch. -/
structure CState where
  enabled : Bool
  duration_left : ℚ
  last_tick_timestamp : Option ℚ
deriving DecidableEq, Repr

/-- Countdown widget config: `config.get("duration", 300)` reads the
configured duration with default 300. -/
structure CConfig where
  duration : Option ℚ
deriving DecidableEq, Repr

/-- Result of a widget action handler: the Python dict
`{"success": True, "new_state": ...}` or `{"success": False, "error": ...}`. -/
inductive ActionResult where
  | ok (new_state : CState)
  | err (msg : String)
deriving DecidableEq, Repr

/-- `message.py:handle_countdown_action`, with the widget's `state` and
`config` passed separately and the current wall-clock time `now` (seconds
since the epoch, `datetime.now(timezone.utc)`) passed explicitly. -/
def handle_countdown_action (state : CState) (config : CConfig)
    (action : String) (payload_duration : Option PVal) (now : ℚ) :
    ActionResult :=
  if action = "start" then
    .ok { state with
          enabled := true
          last_tick_timestamp := some now
          duration_left := config.duration.getD 300 }
  else if action = "pause" then
    let current_duration := state.duration_left
    let new_duration :=
      match state.last_tick_timestamp with
      | some last_tick =>
          if state.enabled then
            max 0 (current_duration - (now - last_tick))
          else current_duration
      | none => current_duration
    .ok { state with
          enabled := false
          duration_left := new_duration
          last_tick_timestamp := none }
  else if action = "resume" then
    .ok { state with enabled := true, last_tick_timestamp := some now }
  else if action = "reset" then
    .ok { enabled := false
          duration_left := config.duration.getD 300
          last_tick_timestamp := none }
  else if action = "set_duration" then
    match payload_duration with
    | some (.num new_duration) =>
        if new_duration < 0 then .err "Invalid duration value"
        else if state.enabled then
          .ok { state with
                duration_left := new_duration
                last_tick_timestamp := some now }
        else
          .ok { state with duration_left := new_duration }
    | _ => .err "Invalid duration value"
  else .err ("Unknown action: " ++ action)

/-- The countdown invariant of the spec: when `enabled=false`,
`last_tick_timestamp` is absent/null. -/
def tick_invariant (s : CState) : Prop :=
  s.enabled = false → s.last_tick_timestamp = none

instance (s : CState) : Decidable (tick_invariant s) := by
  unfold tick_invariant; infer_instance

/-- Python truthiness of an optional string (`if user_id:` etc.):
`None` and the empty string are falsy. -/
def strTruthy : Option String → Bool
  | none => false
  | some s => s ≠ ""

/-- A record of the connections table.  `connect.py` stores
`connectionId`, `authType`, and optionally `user_id` (FullAccess) and
`widgetId` (WidgetAccess); `subscribed_widgets` is a string set added by
`message.py:handle_subscribe` (missing key modelled as the empty list). -/
structure ConnRec where
  connectionId : String
  authType : Option String
  user_id : Option String
  widgetId : Option String
  subscribed_widgets : List String
deriving DecidableEq, Repr

/-- A widget record as seen by `message.py` (`widgets_table.get_item`):
the fields `handle_subscribe`/`handle_action` read.  `type` is read with
`widget.get("type", "unknown")`. -/
structure MWidget where
  user_id : Option String
  type : Option String
  state : CState
  config : CConfig
deriving DecidableEq, Repr

/-- An HTTP-style lambda response `{"statusCode": ..., "body": ...}`. -/
structure Resp where
  statusCode : ℕ
  body : String
deriving DecidableEq, Repr

/-- `message.py:handle_subscribe`.  The widgets table is the function
`widgets : String → Option MWidget` (`get_item` by id);
`mWidgetId` is `message.get("widgetId")`.  The DynamoDB subscription
update and the initial-state push only affect the store and the wire, not
the returned response, so the embedding returns the response. -/
def handle_subscribe (widgets : String → Option MWidget)
    (connection : ConnRec) (mWidgetId : Option String) : Resp :=
  match mWidgetId with
  | none => ⟨400, "Missing widgetId"⟩
  | some widget_id =>
    if widget_id = "" then ⟨400, "Missing widgetId"⟩
    else
      match widgets widget_id with
      | none => ⟨404, "Widget not found"⟩
      | some widget =>
        let auth_type := connection.authType.getD "FullAccess"
        if auth_type = "WidgetAccess" then
          if connection.widgetId ≠ some widget_id then ⟨403, "Forbidden"⟩
          else ⟨200, "Subscribed"⟩
        else if auth_type = "FullAccess" then
          if widget.user_id ≠ connection.user_id then ⟨403, "Forbidden"⟩
          else ⟨200, "Subscribed"⟩
        else ⟨200, "Subscribed"⟩

/-- `message.py:handle_action`.  `mWidgetId`/`mAction` are
`message.get("widgetId")`/`message.get("action")`, `payload_duration` is
`message.get("payload", {}).get("duration")`.  The state write-back and
the `WIDGET_ACTION_RESPONSE` push do not affect the returned response;
the embedding returns the response. -/
def handle_action (widgets : String → Option MWidget)
    (connection : ConnRec) (mWidgetId mAction : Option String)
    (payload_duration : Option PVal) (now : ℚ) : Resp :=
  if connection.authType.getD "FullAccess" = "WidgetAccess" then
    ⟨403, "Read-only access"⟩
  else if ¬ strTruthy mWidgetId ∨ ¬ strTruthy mAction then
    ⟨400, "Missing widgetId or action"⟩
  else
    match mWidgetId, mAction with
    | some widget_id, some action =>
      match widgets widget_id with
      | none => ⟨404, "Widget not found"⟩
      | some widget =>
        if widget.user_id ≠ connection.user_id then ⟨403, "Forbidden"⟩
        else
          let result :=
            if widget.type.getD "unknown" = "countdown" then
              handle_countdown_action widget.state widget.config action
                payload_duration now
            else
              .err ("Unknown widget type: " ++ widget.type.getD "unknown")
          match result with
          | .ok _ => ⟨200, "Action executed"⟩
          | .err _ => ⟨400, "Action executed"⟩
    | _, _ => ⟨400, "Missing widgetId or action"⟩

/-- Outcome of one `post_to_connection` call in the delivery layer:
success, a `GoneException` (recipient gone), or any other client error. -/
inductive Outcome where
  | ok
  | gone
  | err
deriving DecidableEq, Repr

/-- A widget record from the DynamoDB stream image
(`widget_change.py`, after `deserialize_dynamodb_item`).  `config` and
`state` are opaque type-specific maps, only compared for equality, so
they are type parameters; a missing key is `none`. -/
structure WRec (κ σ : Type) where
  id : Option String
  user_id : Option String
  config : Option κ
  state : Option σ
deriving DecidableEq, Repr

/-- `widget_change.py:find_connections_for_widget`: the connection ids of
(a) connections of `user_id` (via the `user_id-index` query, when
`user_id` is truthy) whose `subscribed_widgets` contains `widget_id`,
and (b) connections whose `widgetId` equals `widget_id` (via the
`widgetId-index` query).  The Python function returns a set; the
embedding returns the deduplicated list of connection ids. -/
def find_connections_for_widget (user_id : Option String)
    (widget_id : String) (table : List ConnRec) : List String :=
  let user_conns :=
    if strTruthy user_id then
      (table.filter fun c =>
        c.user_id = user_id ∧ widget_id ∈ c.subscribed_widgets)
    else []
  let widget_conns := table.filter fun c => c.widgetId = some widget_id
  ((user_conns ++ widget_conns).map ConnRec.connectionId).dedup

/-- `widget_change.py:broadcast_to_connections` (together with
`remove_connection`): deliver `message` to every id in `connections`
in order; a `gone` outcome deletes that connection's record from the
table and the loop continues.  `deliver` is the transport outcome per
connection id.  Returns the table after the fan-out and the list of
connection ids a delivery was attempted for, in order. -/
def broadcast_to_connections (deliver : String → Outcome)
    (connections : List String) (table : List ConnRec) :
    List ConnRec × List String :=
  match connections with
  | [] => (table, [])
  | connection_id :: rest =>
    let table' :=
      if deliver connection_id = .gone then
        table.filter fun c => c.connectionId ≠ connection_id
      else table
    let r := broadcast_to_connections deliver rest table'
    (r.1, connection_id :: r.2)

/-- `widget_change.py:handle_widget_change`: given the new and old stream
images, the event name and the connections table, returns the list of
broadcasts performed — each a message type paired with the recipient
list handed to `broadcast_to_connections` — and the connections table
after the fan-out (gone recipients reaped).  Returns early (no
broadcasts, table untouched) when the new image is missing or has no
`id`, when the widget has no truthy `user_id`, or when no connection is
subscribed. -/
def handle_widget_change {κ σ : Type} [DecidableEq κ] [DecidableEq σ]
    (deliver : String → Outcome) (widget : Option (WRec κ σ))
    (old_widget : Option (WRec κ σ)) (event_name : String)
    (table : List ConnRec) :
    List (String × List String) × List ConnRec :=
  match widget with
  | none => ([], table)
  | some w =>
    match w.id with
    | none => ([], table)
    | some widget_id =>
      let config_changed :=
        if event_name = "INSERT" then true
        else if event_name = "MODIFY" then
          match old_widget with
          | some ow => w.config ≠ ow.config
          | none => false
        else false
      let state_changed :=
        if event_name = "INSERT" then true
        else if event_name = "MODIFY" then
          match old_widget with
          | some ow => w.state ≠ ow.state
          | none => false
        else false
      if ¬ strTruthy w.user_id then ([], table)
      else
        let connections :=
          find_connections_for_widget w.user_id widget_id table
        if connections = [] then ([], table)
        else
          let step1 :=
            if config_changed then
              ([("WIDGET_CONFIG_UPDATE", connections)],
               (broadcast_to_connections deliver connections table).1)
            else ([], table)
          let step2 :=
            if state_changed then
              (step1.1 ++ [("WIDGET_STATE_UPDATE", connections)],
               (broadcast_to_connections deliver connections step1.2).1)
            else step1
          step2

/-- Full-identity verification result (`authorizer.py:verify_cognito_jwt`
on success): user id and email from the JWT claims. -/
structure FullAuth where
  userId : String
  email : String
deriving DecidableEq, Repr

/-- A widget row reachable through the `access_token-index` secondary
index (`authorizer.py:verify_widget_token`): the fields the authorizer
reads. -/
structure WidgetTok where
  id : String
  user_id : Option String
deriving DecidableEq, Repr

/-- The allow/deny policy with optional context map returned by
`authorizer.py:generate_policy`, restricted to the fields the policy
carries: principal, effect, and the context's `authType` /
`userId` / `widgetId` entries when a context is attached. -/
structure Policy where
  principalId : String
  effect : String
  authType : Option String
  ctxUserId : Option String
  ctxWidgetId : Option String
deriving DecidableEq, Repr

/-- `authorizer.py:verify_widget_token`, instrumented: `tableSet` is
whether `STREAM_WIDGETS_TABLE` is configured, `isUuid` is
`is_valid_uuid` (the `uuid.UUID` shape test, an external library call),
`lookup` is the `access_token-index` query by token.  Returns whether the
store lookup was performed, paired with the verification result. -/
def verify_widget_token (tableSet : Bool) (isUuid : String → Bool)
    (lookup : String → Option WidgetTok) (token : String) :
    Bool × Option WidgetTok :=
  if ¬ tableSet then (false, none)
  else if ¬ isUuid token then (false, none)
  else (true, lookup token)

/-- `"Bearer "` stripping in `authorizer.py:handler`
(`token.replace("Bearer ", "")`). -/
def stripBearer (token : String) : String :=
  token.replace "Bearer " ""

/-- `authorizer.py:handler`, instrumented: `jwtVerify` is
`verify_cognito_jwt` (signature/expiry/audience checks against the
external identity provider).  Returns the policy, whether widget-scoped
verification was attempted, and whether the widget-store lookup was
performed. -/
def authorizer_handler (jwtVerify : String → Option FullAuth)
    (tableSet : Bool) (isUuid : String → Bool)
    (lookup : String → Option WidgetTok) (tokenParam : Option String) :
    Policy × Bool × Bool :=
  let deny : Policy := ⟨"user", "Deny", none, none, none⟩
  match tokenParam with
  | none => (deny, false, false)
  | some t0 =>
    if t0 = "" then (deny, false, false)
    else
      let token := stripBearer t0
      match jwtVerify token with
      | some cognito_auth =>
        (⟨cognito_auth.userId, "Allow", some "FullAccess",
          some cognito_auth.userId, none⟩, false, false)
      | none =>
        let wres := verify_widget_token tableSet isUuid lookup token
        match wres.2 with
        | some widget =>
          (⟨"widget-" ++ widget.id, "Allow", some "WidgetAccess",
            widget.user_id, some widget.id⟩, true, wres.1)
        | none => (deny, true, wres.1)

/-! ## Theorems -/

/-- C1: the countdown `pause` action always succeeds and returns a state
with enabled=false and last_tick_timestamp=null; if the prior state was
enabled with last_tick_timestamp present, the returned duration_left is
max(0, prior duration_left minus the seconds elapsed since
last_tick_timestamp), otherwise duration_left is unchanged; and after
`start` at t0 with config.duration=300, a `pause` at t0+10 yields
duration_left=290. -/
theorem countdown_pause_correct (st : CState) (cfg : CConfig)
    (pd : Option PVal) (now t0 : ℚ) :
    handle_countdown_action st cfg "pause" pd now =
      .ok { enabled := false
            duration_left :=
              match st.last_tick_timestamp with
              | some lt =>
                  if st.enabled then
                    max 0 (st.duration_left - (now - lt))
                  else st.duration_left
              | none => st.duration_left
            last_tick_timestamp := none } ∧
    handle_countdown_action ⟨false, 300, none⟩ ⟨some 300⟩ "start" pd t0 =
      .ok ⟨true, 300, some t0⟩ ∧
    handle_countdown_action ⟨true, 300, some t0⟩ ⟨some 300⟩ "pause" pd
        (t0 + 10) =
      .ok ⟨false, 290, none⟩ := by
  refine ⟨rfl, rfl, ?_⟩
  show ActionResult.ok ⟨false, max 0 (300 - (t0 + 10 - t0)), none⟩ =
    .ok ⟨false, 290, none⟩
  have h : (300 : ℚ) - (t0 + 10 - t0) = 290 := by ring
  rw [h]
  norm_num

/-- C7: the countdown `reset` action succeeds from every prior state and
returns exactly {enabled:false, duration_left:config.duration,
last_tick_timestamp:null}, independently of the prior state, and applying
`reset` again from that result yields the same state (idempotent
terminal reset). -/
theorem countdown_reset_correct (st : CState) (cfg : CConfig)
    (pd pd' : Option PVal) (now now' : ℚ) :
    handle_countdown_action st cfg "reset" pd now =
      .ok ⟨false, cfg.duration.getD 300, none⟩ ∧
    handle_countdown_action ⟨false, cfg.duration.getD 300, none⟩ cfg
        "reset" pd' now' =
      .ok ⟨false, cfg.duration.getD 300, none⟩ :=
  ⟨rfl, rfl⟩

/-- C6: the countdown `set_duration` action fails with the invalid-value
error exactly when the payload's duration is not a non-negative number;
on success with the widget enabled it sets duration_left to the given
value and last_tick_timestamp to now; on success with the widget not
enabled it sets duration_left only, leaving last_tick_timestamp (and
enabled) as they were. -/
theorem countdown_set_duration_correct (st : CState) (cfg : CConfig)
    (pd : Option PVal) (now : ℚ) :
    ((∃ s', handle_countdown_action st cfg "set_duration" pd now = .ok s') ↔
      ∃ q : ℚ, pd = some (.num q) ∧ 0 ≤ q) ∧
    (∀ q : ℚ, pd = some (.num q) → 0 ≤ q → st.enabled = true →
      handle_countdown_action st cfg "set_duration" pd now =
        .ok { st with duration_left := q
                      last_tick_timestamp := some now }) ∧
    (∀ q : ℚ, pd = some (.num q) → 0 ≤ q → st.enabled = false →
      handle_countdown_action st cfg "set_duration" pd now =
        .ok { st with duration_left := q }) ∧
    ((¬ ∃ q : ℚ, pd = some (.num q) ∧ 0 ≤ q) →
      handle_countdown_action st cfg "set_duration" pd now =
        .err "Invalid duration value") := by
  rcases pd with _ | pv
  · refine ⟨⟨?_, ?_⟩, ?_, ?_, ?_⟩
    · rintro ⟨s', hs'⟩
      exact ActionResult.noConfusion hs'
    · rintro ⟨q, hq, -⟩
      exact Option.noConfusion hq
    · rintro q hq
      exact Option.noConfusion hq
    · rintro q hq
      exact Option.noConfusion hq
    · intro _
      rfl
  · cases pv with
    | num q =>
      have hred : handle_countdown_action st cfg "set_duration"
          (some (.num q)) now =
          (if q < 0 then .err "Invalid duration value"
           else if st.enabled then
             .ok { st with duration_left := q
                           last_tick_timestamp := some now }
           else .ok { st with duration_left := q }) := rfl
      by_cases hq : q < 0
      · rw [hred, if_pos hq]
        refine ⟨⟨?_, ?_⟩, ?_, ?_, fun _ => rfl⟩
        · rintro ⟨s', hs'⟩
          exact ActionResult.noConfusion hs'
        · rintro ⟨q', hq', hq0⟩
          cases hq'
          exact absurd hq (not_lt.mpr hq0)
        · rintro q' hq' hq0
          cases hq'
          exact absurd hq (not_lt.mpr hq0)
        · rintro q' hq' hq0
          cases hq'
          exact absurd hq (not_lt.mpr hq0)
      · rw [hred, if_neg hq]
        by_cases hen : st.enabled = true
        · rw [if_pos hen]
          refine ⟨⟨fun _ => ⟨q, rfl, not_lt.mp hq⟩, fun _ => ⟨_, rfl⟩⟩,
            ?_, ?_, ?_⟩
          · rintro q' hq' - -
            cases hq'
            rfl
          · rintro q' - - hen'
            rw [hen] at hen'
            exact Bool.noConfusion hen'
          · intro hno
            exact absurd ⟨q, rfl, not_lt.mp hq⟩ hno
        · rw [if_neg hen]
          refine ⟨⟨fun _ => ⟨q, rfl, not_lt.mp hq⟩, fun _ => ⟨_, rfl⟩⟩,
            ?_, ?_, ?_⟩
          · rintro q' - - hen'
            exact absurd hen' hen
          · rintro q' hq' - -
            cases hq'
            rfl
          · intro hno
            exact absurd ⟨q, rfl, not_lt.mp hq⟩ hno
    | str s =>
      refine ⟨⟨?_, ?_⟩, ?_, ?_, fun _ => rfl⟩
      · rintro ⟨s', hs'⟩
        exact ActionResult.noConfusion hs'
      · rintro ⟨q, hq, -⟩
        cases hq
      · rintro q hq
        cases hq
      · rintro q hq
        cases hq
    | null =>
      refine ⟨⟨?_, ?_⟩, ?_, ?_, fun _ => rfl⟩
      · rintro ⟨s', hs'⟩
        exact ActionResult.noConfusion hs'
      · rintro ⟨q, hq, -⟩
        cases hq
      · rintro q hq
        cases hq
      · rintro q hq
        cases hq

/-- Witness for C6: `set_duration` with duration 7 on a paused countdown
sets duration_left to 7 and leaves last_tick_timestamp null. -/
theorem countdown_set_duration_witness :
    handle_countdown_action ⟨false, 5, none⟩ ⟨none⟩ "set_duration"
      (some (.num 7)) 0 = .ok ⟨false, 7, none⟩ :=
  (countdown_set_duration_correct ⟨false, 5, none⟩ ⟨none⟩
    (some (.num 7)) 0).2.2.1 7 rfl (by norm_num) rfl

/-- C9: every successful countdown transition preserves the invariant
that a disabled state carries no last_tick_timestamp. -/
theorem countdown_tick_invariant_preserved (st : CState) (cfg : CConfig)
    (action : String) (pd : Option PVal) (now : ℚ) (s' : CState)
    (hinv : tick_invariant st)
    (hok : handle_countdown_action st cfg action pd now = .ok s') :
    tick_invariant s' := by
  by_cases h1 : action = "start"
  · subst h1
    have h : ActionResult.ok
        { st with enabled := true
                  last_tick_timestamp := some now
                  duration_left := cfg.duration.getD 300 } = .ok s' := hok
    cases h
    intro hfalse
    simp at hfalse
  by_cases h2 : action = "pause"
  · subst h2
    have h : ActionResult.ok
        { st with enabled := false
                  duration_left :=
                    match st.last_tick_timestamp with
                    | some lt =>
                        if st.enabled then
                          max 0 (st.duration_left - (now - lt))
                        else st.duration_left
                    | none => st.duration_left
                  last_tick_timestamp := none } = .ok s' := hok
    cases h
    intro _
    rfl
  by_cases h3 : action = "resume"
  · subst h3
    have h : ActionResult.ok
        { st with enabled := true
                  last_tick_timestamp := some now } = .ok s' := hok
    cases h
    intro hfalse
    simp at hfalse
  by_cases h4 : action = "reset"
  · subst h4
    have h : ActionResult.ok
        { enabled := false
          duration_left := cfg.duration.getD 300
          last_tick_timestamp := none } = .ok s' := hok
    cases h
    intro _
    rfl
  by_cases h5 : action = "set_duration"
  · subst h5
    rcases pd with _ | pv
    · exact ActionResult.noConfusion hok
    cases pv with
    | num q =>
      have hred : handle_countdown_action st cfg "set_duration"
          (some (.num q)) now =
          (if q < 0 then .err "Invalid duration value"
           else if st.enabled then
             .ok { st with duration_left := q
                           last_tick_timestamp := some now }
           else .ok { st with duration_left := q }) := rfl
      rw [hred] at hok
      by_cases hq : q < 0
      · rw [if_pos hq] at hok
        exact ActionResult.noConfusion hok
      · rw [if_neg hq] at hok
        by_cases hen : st.enabled = true
        · rw [if_pos hen] at hok
          cases hok
          intro hfalse
          exact absurd hfalse (by simp [hen])
        · rw [if_neg hen] at hok
          cases hok
          intro hfalse
          exact hinv hfalse
    | str s => exact ActionResult.noConfusion hok
    | null => exact ActionResult.noConfusion hok
  · unfold handle_countdown_action at hok
    rw [if_neg h1, if_neg h2, if_neg h3, if_neg h4, if_neg h5] at hok
    exact ActionResult.noConfusion hok

/-- Witness for C9: the invariant theorem applied to a concrete `start`
transition from a paused state. -/
theorem countdown_tick_invariant_witness :
    tick_invariant (⟨true, (300 : ℚ), some 5⟩ : CState) :=
  countdown_tick_invariant_preserved ⟨false, 300, none⟩ ⟨some 300⟩
    "start" none 5 ⟨true, 300, some 5⟩ (by decide) rfl

/-- Counterexample to C2 as stated: a WidgetAccess connection bound to
widget w1 subscribing to a different widget w2 that does not exist in the
widgets table is rejected with 404 Not Found, not with 403 Forbidden (the
existence check runs before the access check). -/
theorem widget_access_subscribe_counterexample :
    handle_subscribe (fun _ => none)
        ⟨"c1", some "WidgetAccess", none, some "w1", []⟩ (some "w2") =
      ⟨404, "Widget not found"⟩ ∧
    (⟨404, "Widget not found"⟩ : Resp) ≠ ⟨403, "Forbidden"⟩ := by
  exact ⟨rfl, by decide⟩

/-- C2 as amended: for a connection with authType=WidgetAccess, every
accepted WIDGET_SUBSCRIBE (status 200) targets exactly the connection's
bound widgetId; a subscribe targeting a different widgetId is rejected
with 403 Forbidden when the target widget exists, and with 404 when it
does not; a subscribe with no target is rejected with 400; and a
WIDGET_ACTION from a WidgetAccess connection is always rejected with
403 read-only, never accepted. -/
theorem widget_access_guard (widgets : String → Option MWidget)
    (conn : ConnRec) (wid : String) (mWidgetId mAction : Option String)
    (pd : Option PVal) (now : ℚ)
    (hauth : conn.authType = some "WidgetAccess") :
    (handle_subscribe widgets conn (some wid) = ⟨200, "Subscribed"⟩ →
      conn.widgetId = some wid) ∧
    ((widgets wid).isSome = true → conn.widgetId ≠ some wid → wid ≠ "" →
      handle_subscribe widgets conn (some wid) = ⟨403, "Forbidden"⟩) ∧
    (widgets wid = none → wid ≠ "" →
      handle_subscribe widgets conn (some wid) =
        ⟨404, "Widget not found"⟩) ∧
    (handle_subscribe widgets conn none = ⟨400, "Missing widgetId"⟩) ∧
    (handle_action widgets conn mWidgetId mAction pd now =
      ⟨403, "Read-only access"⟩) := by
  have hget : conn.authType.getD "FullAccess" = "WidgetAccess" := by
    rw [hauth]
    rfl
  refine ⟨?_, ?_, ?_, rfl, ?_⟩
  · intro h200
    by_cases hb : conn.widgetId = some wid
    · exact hb
    · exfalso
      by_cases hw : wid = ""
      · simp [handle_subscribe, hw] at h200
      · cases hwid : widgets wid with
        | none => simp [handle_subscribe, hw, hwid] at h200
        | some w => simp [handle_subscribe, hw, hwid, hget, hb] at h200
  · intro hsome hb hw
    cases hwid : widgets wid with
    | none =>
      rw [hwid] at hsome
      exact absurd hsome (by decide)
    | some w => simp [handle_subscribe, hw, hwid, hget, hb]
  · intro hnone hw
    simp [handle_subscribe, hw, hnone]
  · simp [handle_action, hget]

/-- Witness for C2: the amended guard evaluated for a WidgetAccess
connection bound to w1, with w2 an existing widget it does not own:
subscribing to w2 yields 403 Forbidden. -/
theorem widget_access_guard_witness :
    handle_subscribe
        (fun _ => some ⟨some "u", some "countdown", ⟨false, 0, none⟩, ⟨none⟩⟩)
        ⟨"c1", some "WidgetAccess", none, some "w1", []⟩ (some "w2") =
      ⟨403, "Forbidden"⟩ :=
  (widget_access_guard
    (fun _ => some ⟨some "u", some "countdown", ⟨false, 0, none⟩, ⟨none⟩⟩)
    ⟨"c1", some "WidgetAccess", none, some "w1", []⟩ "w2" none none none 0
    rfl).2.1 rfl (by decide) (by decide)

/-- The delivery attempts of a fan-out are exactly the recipient list,
in order: no outcome stops the loop. -/
lemma broadcast_attempts_eq (deliver : String → Outcome)
    (recips : List String) (table : List ConnRec) :
    (broadcast_to_connections deliver recips table).2 = recips := by
  induction recips generalizing table with
  | nil => rfl
  | cons c rest ih => simp [broadcast_to_connections, ih]

/-- The connections table after a fan-out is the initial table minus
exactly the records of recipients whose delivery signalled gone. -/
lemma broadcast_table_eq (deliver : String → Outcome)
    (recips : List String) (table : List ConnRec) :
    (broadcast_to_connections deliver recips table).1 =
      table.filter (fun c =>
        !(recips.contains c.connectionId &&
          decide (deliver c.connectionId = .gone))) := by
  induction recips generalizing table with
  | nil => simp [broadcast_to_connections]
  | cons c rest ih =>
    simp only [broadcast_to_connections]
    by_cases hc : deliver c = .gone
    · rw [if_pos hc, ih, List.filter_filter]
      apply List.filter_congr
      intro x _
      by_cases hx : x.connectionId = c
      · simp [hx, hc]
      · simp [hx]
    · rw [if_neg hc, ih]
      apply List.filter_congr
      intro x _
      by_cases hx : x.connectionId = c
      · simp [hx, hc]
      · simp [hx]

/-- C5: during one fan-out, a delivery is attempted for every recipient
(no gone signal or other failure stops the loop), and the resulting
connections table is the initial one with exactly the records of the
recipients whose delivery signalled gone removed — no other record is
touched. -/
theorem broadcast_gone_reaping (deliver : String → Outcome)
    (recips : List String) (table : List ConnRec) :
    (broadcast_to_connections deliver recips table).2 = recips ∧
    (broadcast_to_connections deliver recips table).1 =
      table.filter (fun c =>
        !(recips.contains c.connectionId &&
          decide (deliver c.connectionId = .gone))) :=
  ⟨broadcast_attempts_eq deliver recips table,
   broadcast_table_eq deliver recips table⟩

/-- C3: the recipient set computed by the change dispatcher is exactly
the union of (a) connections of the widget's owner whose
subscribed_widgets contains the widget id and (b) connections whose
bound widgetId equals the widget id; and a WidgetAccess connection bound
to widget W receives both update messages of a mutation-feed INSERT on W
without any explicit subscribe (its subscribed_widgets is empty). -/
theorem dispatcher_recipients (uOpt : Option String) (wid cid : String)
    (table : List ConnRec) :
    (cid ∈ find_connections_for_widget uOpt wid table ↔
      ∃ c, c ∈ table ∧ c.connectionId = cid ∧
        ((strTruthy uOpt = true ∧ c.user_id = uOpt ∧
            wid ∈ c.subscribed_widgets) ∨
         c.widgetId = some wid)) ∧
    (handle_widget_change (κ := ℕ) (σ := ℕ) (fun _ => .ok)
        (some ⟨some "W", some "u", some 1, some 2⟩) none "INSERT"
        [⟨"C", some "WidgetAccess", none, some "W", []⟩] =
      ([("WIDGET_CONFIG_UPDATE", ["C"]), ("WIDGET_STATE_UPDATE", ["C"])],
       [⟨"C", some "WidgetAccess", none, some "W", []⟩])) := by
  constructor
  · cases hstr : strTruthy uOpt with
    | false =>
      simp [find_connections_for_widget, hstr, List.mem_filter]
      aesop
    | true =>
      simp [find_connections_for_widget, hstr, List.mem_filter]
      aesop
  · rfl

/-- C4: for a mutation event that reaches the fan-out stage, a
WIDGET_CONFIG_UPDATE is broadcast iff the event is an insert or the new
config differs from the old, and a WIDGET_STATE_UPDATE is broadcast iff
the event is an insert or the new state differs from the old, decided
independently; a config-only modification broadcasts only the config
update, and an insert broadcasts both. -/
theorem widget_change_message_kinds {κ σ : Type} [DecidableEq κ]
    [DecidableEq σ] (deliver : String → Outcome) (w ow : WRec κ σ)
    (event wid : String) (table : List ConnRec)
    (hid : w.id = some wid)
    (huser : strTruthy w.user_id = true)
    (hconns : find_connections_for_widget w.user_id wid table ≠ [])
    (hev : event = "INSERT" ∨ event = "MODIFY") :
    ("WIDGET_CONFIG_UPDATE" ∈
        ((handle_widget_change deliver (some w) (some ow) event
          table).1.map Prod.fst) ↔
      (event = "INSERT" ∨ (event = "MODIFY" ∧ w.config ≠ ow.config))) ∧
    ("WIDGET_STATE_UPDATE" ∈
        ((handle_widget_change deliver (some w) (some ow) event
          table).1.map Prod.fst) ↔
      (event = "INSERT" ∨ (event = "MODIFY" ∧ w.state ≠ ow.state))) ∧
    (event = "MODIFY" → w.config ≠ ow.config → w.state = ow.state →
      (handle_widget_change deliver (some w) (some ow) event
        table).1.map Prod.fst = ["WIDGET_CONFIG_UPDATE"]) ∧
    (event = "INSERT" →
      (handle_widget_change deliver (some w) (some ow) event
        table).1.map Prod.fst =
        ["WIDGET_CONFIG_UPDATE", "WIDGET_STATE_UPDATE"]) := by
  rcases hev with h | h <;> subst h
  · simp [handle_widget_change, hid, huser, hconns]
  · by_cases hc : w.config = ow.config <;>
      by_cases hs : w.state = ow.state <;>
      simp [handle_widget_change, hid, huser, hconns, hc, hs]

/-- Witness for C4: a config-only modification with one subscribed
owner connection broadcasts WIDGET_CONFIG_UPDATE and nothing else. -/
theorem widget_change_message_kinds_witness :
    (handle_widget_change (κ := ℕ) (σ := ℕ) (fun _ => .ok)
      (some ⟨some "W", some "u", some 1, some 2⟩)
      (some ⟨some "W", some "u", some 9, some 2⟩) "MODIFY"
      [⟨"D", some "FullAccess", some "u", none, ["W"]⟩]).1.map Prod.fst =
      ["WIDGET_CONFIG_UPDATE"] :=
  (widget_change_message_kinds (fun _ => .ok)
    ⟨some "W", some "u", some 1, some 2⟩
    ⟨some "W", some "u", some 9, some 2⟩ "MODIFY" "W"
    [⟨"D", some "FullAccess", some "u", none, ["W"]⟩]
    rfl rfl (by decide) (Or.inr rfl)).2.2.1 rfl (by decide) rfl

/-- C10: a mutation event whose new record has no user_id produces no
broadcasts at all — not even to WidgetAccess connections bound to the
widget — and leaves the connections table unchanged. -/
theorem widget_change_no_user {κ σ : Type} [DecidableEq κ]
    [DecidableEq σ] (deliver : String → Outcome) (w : WRec κ σ)
    (ow : Option (WRec κ σ)) (event : String) (table : List ConnRec)
    (huser : w.user_id = none) :
    handle_widget_change deliver (some w) ow event table = ([], table) := by
  obtain ⟨idOpt, uid, cfg, stt⟩ := w
  cases huser
  cases idOpt
  · rfl
  · rfl

/-- Witness for C10: an INSERT without user_id sends nothing, even
though a WidgetAccess connection is bound to the widget. -/
theorem widget_change_no_user_witness :
    handle_widget_change (κ := ℕ) (σ := ℕ) (fun _ => .ok)
      (some ⟨some "W", none, some 1, some 2⟩) none "INSERT"
      [⟨"C", some "WidgetAccess", none, some "W", []⟩] =
      ([], [⟨"C", some "WidgetAccess", none, some "W", []⟩]) :=
  widget_change_no_user (fun _ => .ok) ⟨some "W", none, some 1, some 2⟩
    none "INSERT" [⟨"C", some "WidgetAccess", none, some "W", []⟩] rfl

/-- C8: the authorizer tries JWT verification first — on JWT success the
widget strategy is not attempted — and attempts widget verification
exactly when JWT verification fails; the widget-store lookup happens
only for tokens of the opaque-identifier shape, otherwise widget
verification rejects with no lookup; and the caller is denied exactly
when both strategies fail, including when no token (or an empty token)
is supplied. -/
theorem authorizer_order_and_deny (jwtVerify : String → Option FullAuth)
    (tableSet : Bool) (isUuid : String → Bool)
    (lookup : String → Option WidgetTok) (t : String) (ht : t ≠ "") :
    ((authorizer_handler jwtVerify tableSet isUuid lookup none).1.effect =
      "Deny") ∧
    ((authorizer_handler jwtVerify tableSet isUuid lookup
        (some "")).1.effect = "Deny") ∧
    (∀ fa, jwtVerify (stripBearer t) = some fa →
      authorizer_handler jwtVerify tableSet isUuid lookup (some t) =
        (⟨fa.userId, "Allow", some "FullAccess", some fa.userId, none⟩,
         false, false)) ∧
    ((authorizer_handler jwtVerify tableSet isUuid lookup
        (some t)).2.1 = true ↔ jwtVerify (stripBearer t) = none) ∧
    ((authorizer_handler jwtVerify tableSet isUuid lookup
        (some t)).2.2 = true → isUuid (stripBearer t) = true) ∧
    (isUuid (stripBearer t) = false →
      verify_widget_token tableSet isUuid lookup (stripBearer t) =
        (false, none)) ∧
    ((authorizer_handler jwtVerify tableSet isUuid lookup
        (some t)).1.effect = "Deny" ↔
      (jwtVerify (stripBearer t) = none ∧
       (verify_widget_token tableSet isUuid lookup
          (stripBearer t)).2 = none)) := by
  refine ⟨rfl, rfl, ?_, ?_, ?_, ?_, ?_⟩
  · intro fa hfa
    simp [authorizer_handler, ht, hfa]
  · cases hjwt : jwtVerify (stripBearer t) with
    | none =>
      cases hw : (verify_widget_token tableSet isUuid lookup
          (stripBearer t)).2 with
      | none => simp [authorizer_handler, ht, hjwt, hw]
      | some wa => simp [authorizer_handler, ht, hjwt, hw]
    | some fa => simp [authorizer_handler, ht, hjwt]
  · cases hjwt : jwtVerify (stripBearer t) with
    | none =>
      intro hlk
      by_cases hu : isUuid (stripBearer t) = true
      · exact hu
      · exfalso
        have hv : verify_widget_token tableSet isUuid lookup
            (stripBearer t) = (false, none) := by
          unfold verify_widget_token
          cases tableSet
          · rfl
          · rw [if_neg (by simp), if_pos]
            simpa using hu
        cases hw : (verify_widget_token tableSet isUuid lookup
            (stripBearer t)).2 with
        | none =>
          rw [show (authorizer_handler jwtVerify tableSet isUuid lookup
              (some t)).2.2 = (verify_widget_token tableSet isUuid lookup
              (stripBearer t)).1 from by simp [authorizer_handler, ht,
              hjwt, hw], hv] at hlk
          exact Bool.noConfusion hlk
        | some wa =>
          rw [hv] at hw
          exact Option.noConfusion hw
    | some fa =>
      intro hlk
      rw [show (authorizer_handler jwtVerify tableSet isUuid lookup
          (some t)).2.2 = false from by simp [authorizer_handler, ht,
          hjwt]] at hlk
      exact Bool.noConfusion hlk
  · intro hu
    unfold verify_widget_token
    cases tableSet
    · rfl
    · rw [if_neg (by simp), if_pos]
      simp [hu]
  · cases hjwt : jwtVerify (stripBearer t) with
    | none =>
      cases hw : (verify_widget_token tableSet isUuid lookup
          (stripBearer t)).2 with
      | none => simp [authorizer_handler, ht, hjwt, hw]
      | some wa => simp [authorizer_handler, ht, hjwt, hw]
    | some fa => simp [authorizer_handler, ht, hjwt]

/-- Witness for C8: with a failing JWT verifier and a non-UUID-shaped
token, the authorizer denies, widget verification was attempted, and no
store lookup was performed. -/
theorem authorizer_order_and_deny_witness :
    (authorizer_handler (fun _ => none) true (fun _ => false)
      (fun _ => none) (some "tok")).1.effect = "Deny" :=
  (authorizer_order_and_deny (fun _ => none) true (fun _ => false)
    (fun _ => none) "tok" (by decide)).2.2.2.2.2.2.mpr ⟨rfl, rfl⟩

end GT
